import Mathlib

/-!
Shallow embedding of the ScreenRecordingVisualizer client core
(`src/client/src/timing.py`, `screen_capture.py`, `input_logger.py`,
`timeline_muxer.py`, `uploader.py`) together with theorems settling the
spec claims about it.

Conventions of the embedding:
* Python ints are `Int`/`Nat`; `time.time()` / `time.perf_counter()`
  readings are exact rationals (`Rat`), `time.perf_counter_ns()` readings
  are `Int` nanosecond counts.
* Python float division followed by `int(...)` is modelled as exact
  rational arithmetic: `int(x / d)` for integer `x, d` is truncation
  toward zero, i.e. `Int.tdiv x d`.
* Process-global mutable state (the clock origin) and `self` attributes
  are threaded as explicit state values; each function of the source
  becomes a pure state transformer returning its result and new state.
* Filesystem reads are passed in as explicit parameters: a `Bool` for an
  `os.path.exists` check, an `Option` of parsed content for a
  `json.load` (with `none` standing for a raised exception).
-/

namespace Timing

/-- State of the module-global `START_TIME_NS` in `timing.py`:
`none` until first initialized, then `some origin`. -/
abbrev ClockState := Option Int

/-- `timing.get_start_time`: returns the global start time, initializing
it to the current `perf_counter_ns` reading `now` when still unset. -/
def get_start_time (st : ClockState) (now : Int) : Int × ClockState :=
  match st with
  | none => (now, some now)
  | some origin => (origin, some origin)

/-- `timing.set_start_time`: unconditionally resets the origin to `now`.
Present in the source but never called by any component. -/
def set_start_time (_st : ClockState) (now : Int) : Int × ClockState :=
  (now, some now)

/-- `timing.get_timestamp_ns`: `time.perf_counter_ns() - get_start_time()`. -/
def get_timestamp_ns (st : ClockState) (now : Int) : Int × ClockState :=
  let r := get_start_time st now
  (now - r.1, r.2)

end Timing

namespace ScreenCapture

/-- Opaque raw pixel buffer of one grabbed screenshot (`sct.grab` result). -/
abbrev Pixels := String

/-- One entry of the frame channel: the `(timestamp_ns, frame)` pair the
capture worker puts on `self.frame_queue`. -/
abbrev Frame := Int × Pixels

/-- `self.frame_queue` is `Queue(maxsize=2)`; `frame_queue.full()` holds
exactly when it already carries 2 items. -/
def frame_queue_full (q : List Frame) : Bool := decide (2 ≤ q.length)

/-- The loop-local state of `ScreenCapture._capture_worker`: the channel
contents plus `last_capture_time` (seconds, `time.perf_counter`). -/
structure CaptureState where
  last_capture_time : Rat
  frame_queue : List Frame
deriving DecidableEq, Repr

/-- One iteration of the `while self.running` loop of
`ScreenCapture._capture_worker`, given the `time.perf_counter()` reading
`current_time`, the `time.perf_counter_ns()` reading `now_ns` taken when a
frame is due, and the grabbed pixels. If the elapsed time has reached
`frame_interval` the frame is stamped with `now_ns` (the raw reading, no
origin subtraction: the module does not import `timing`) and pushed only
when the channel is not full; `last_capture_time` then advances whether or
not the push happened. The per-iteration sleep only spends wall time and is
not part of the state. -/
def capture_iteration (st : CaptureState) (frame_interval : Rat)
    (current_time : Rat) (now_ns : Int) (pixels : Pixels) : CaptureState :=
  if frame_interval ≤ current_time - st.last_capture_time then
    let q :=
      if ¬ frame_queue_full st.frame_queue then
        st.frame_queue ++ [(now_ns, pixels)]
      else st.frame_queue
    { last_capture_time := current_time, frame_queue := q }
  else st

end ScreenCapture

namespace InputLogger

/-- One recorded input event: the dict built by `InputLogger._add_event`
with `t`, `kind`, and the kind-specific keyword fields (absent keys are
`none`). -/
structure InputEvent where
  t : Int
  kind : String
  button : Option String := none
  x : Option Int := none
  y : Option Int := none
  dx : Option Int := none
  dy : Option Int := none
  start_x : Option Int := none
  start_y : Option Int := none
  end_x : Option Int := none
  end_y : Option Int := none
  duration_ns : Option Int := none
  key : Option String := none
deriving DecidableEq, Repr

/-- `self.drag_state`: one dict holding the three per-button flags and the
shared start coordinates / start time of the most recent press. -/
structure DragState where
  left : Bool
  right : Bool
  middle : Bool
  start_x : Int
  start_y : Int
  start_time : Int
deriving DecidableEq, Repr

/-- The initial `drag_state` dict of `InputLogger.__init__`. -/
def DragState.init : DragState :=
  { left := false, right := false, middle := false,
    start_x := 0, start_y := 0, start_time := 0 }

/-- Keys of the `drag_state` dict, for the `button_name in self.drag_state`
membership tests. The non-button keys can never collide with a pynput
button name (`left`/`right`/`middle`/`x1`/`x2`/...), so for real buttons
membership is equivalent to being one of the three tracked buttons. -/
def dragKeys : List String :=
  ["left", "right", "middle", "start_x", "start_y", "start_time"]

/-- Read the per-button flag `drag_state[button_name]`; only the three
Bool-valued keys are button flags. -/
def DragState.getButton (d : DragState) (name : String) : Bool :=
  if name = "left" then d.left
  else if name = "right" then d.right
  else if name = "middle" then d.middle
  else false

/-- Write the per-button flag `drag_state[button_name] = v`. -/
def DragState.setButton (d : DragState) (name : String) (v : Bool) :
    DragState :=
  if name = "left" then { d with left := v }
  else if name = "right" then { d with right := v }
  else if name = "middle" then { d with middle := v }
  else d

/-- The attributes of one `InputLogger` that its callbacks touch, plus the
global clock state of `timing.py` that `_add_event` reads through
`get_timestamp_ns`. -/
structure LoggerState where
  running : Bool
  events : List InputEvent
  drag_state : DragState
  clock : Timing.ClockState

/-- `InputLogger._add_event`: if running, stamps `get_timestamp_ns()` and
appends the event under the lock; otherwise a no-op. `mk` builds the event
dict from the timestamp. -/
def add_event (st : LoggerState) (now : Int) (mk : Int → InputEvent) :
    LoggerState :=
  if st.running then
    let r := Timing.get_timestamp_ns st.clock now
    { st with events := st.events ++ [mk r.1], clock := r.2 }
  else st

/-- `InputLogger.on_mouse_click`. All `time.perf_counter_ns()` readings
during one callback are modelled as the single instant `now`; `button_name`
is the pynput button name. -/
def on_mouse_click (st : LoggerState) (now : Int) (x y : Int)
    (button_name : String) (pressed : Bool) : LoggerState :=
  if pressed then
    let st := add_event st now fun t =>
      { t := t, kind := "mouse_down", button := some button_name,
        x := some x, y := some y }
    if button_name ∈ dragKeys then
      { st with drag_state :=
          { st.drag_state.setButton button_name true with
              start_x := x, start_y := y, start_time := now } }
    else st
  else
    let st := add_event st now fun t =>
      { t := t, kind := "mouse_up", button := some button_name,
        x := some x, y := some y }
    if button_name ∈ dragKeys ∧ st.drag_state.getButton button_name then
      let dx := |x - st.drag_state.start_x|
      let dy := |y - st.drag_state.start_y|
      let drag_time := now - st.drag_state.start_time
      let sx := st.drag_state.start_x
      let sy := st.drag_state.start_y
      let st :=
        if 5 < dx ∨ 5 < dy then
          add_event st now fun t =>
            { t := t, kind := "drag_end", button := some button_name,
              start_x := some sx, start_y := some sy,
              end_x := some x, end_y := some y,
              duration_ns := some drag_time }
        else st
      { st with drag_state := st.drag_state.setButton button_name false }
    else st

/-- `InputLogger.on_mouse_move`: a `mouse_drag` event is recorded only
while some button's drag flag is set. -/
def on_mouse_move (st : LoggerState) (now : Int) (x y : Int) :
    LoggerState :=
  if st.drag_state.left ∨ st.drag_state.right ∨ st.drag_state.middle then
    add_event st now fun t =>
      { t := t, kind := "mouse_drag", x := some x, y := some y }
  else st

end InputLogger

namespace TimelineMuxer

/-- One raw event dict as read from the events file by the muxer: the
muxer touches only the integer key `t`; every other key is carried opaque
in `rest`. -/
structure RawEvent where
  t : Int
  rest : String
deriving DecidableEq, Repr

/-- The parsed JSON of an events file. `events = none` models a JSON
object without an `"events"` key (the `"events" in data` test fails). -/
structure EventsData where
  events : Option (List RawEvent)
deriving DecidableEq, Repr

/-- What the muxer can see of the events file when it reads it:
`events_exists` is the `os.path.exists` check and `content` the outcome
of `json.load` (`none` for a raised exception, `some d` for parsed data
`d`). Reading the same file twice during one finalize yields the same
view. The separate `events_file_set` argument below is the truthiness of
`self.events_file` itself. -/
structure EventsFileView where
  events_exists : Bool
  content : Option EventsData
deriving Repr

/-- `TimelineMuxer._calculate_duration`: duration in seconds as an exact
rational. Any exception inside the `try` (modelled by `content = none`
when the file is actually read) yields `0`; an absent file or fewer than
two events yields the fixed `30` placeholder. -/
def calculate_duration (events_file_set : Bool) (v : EventsFileView) :
    Rat :=
  if events_file_set ∧ v.events_exists then
    match v.content with
    | none => 0
    | some d =>
      match d.events with
      | some evs =>
        if 1 < evs.length then
          match evs with
          | [] => 30
          | e :: rest =>
            ((((e :: rest).getLast (by simp)).t - e.t : Int) : Rat)
              / 1000000000
        else 30
      | none => 30
  else 30

/-- The `meta` object `_normalize_events` attaches to its result;
`start_time` (a `time.time()` wall-clock reading) is present only on the
fully successful branch. -/
structure NormMeta where
  fps : Int
  resolution : Int × Int
  start_time : Option Rat := none
deriving DecidableEq, Repr

/-- Result of `_normalize_events`: the missing-file branch returns a bare
`{"events": []}` with no `meta` at all, hence `meta : Option NormMeta`. -/
structure NormalizedEvents where
  meta : Option NormMeta
  events : List RawEvent
deriving Repr

/-- `TimelineMuxer._normalize_events`: rebases every event timestamp to
the first event and rescales nanoseconds to milliseconds via Python
`int((t - first) / 1_000_000)`, i.e. truncation toward zero of the exact
quotient. `wall_clock` is the `time.time()` reading taken for
`start_time`. -/
def normalize_events (events_file_set : Bool) (v : EventsFileView)
    (wall_clock : Rat) : NormalizedEvents :=
  if events_file_set ∧ v.events_exists then
    match v.content with
    | none =>
      { meta := some { fps := 10, resolution := (1280, 800) }, events := [] }
    | some d =>
      match d.events with
      | none =>
        { meta := some { fps := 10, resolution := (1280, 800) },
          events := [] }
      | some [] =>
        { meta := some { fps := 10, resolution := (1280, 800) },
          events := [] }
      | some (e :: rest) =>
        let first_timestamp := e.t
        { meta := some
            { fps := 10, resolution := (1280, 800),
              start_time := some wall_clock },
          events := (e :: rest).map fun ev =>
            { ev with t := (ev.t - first_timestamp).tdiv 1000000 } }
  else { meta := none, events := [] }

/-- The `metadata` dict finalize writes to `metadata.json`. -/
structure Manifest where
  id : String
  timestamp : Rat
  duration : Rat
  resolution : Int × Int
  fps : Int
deriving Repr

/-- The attributes of a `TimelineMuxer` that `finalize` reads. -/
structure MuxState where
  running : Bool
  recording_id : Option String
  video_file : Option String
  events_file : Option String
deriving Repr

/-- Everything `finalize` does: which files it writes into the recording
directory, whether it creates the zip archive (and at which name), and its
return value. The zip is written exactly on the path that returns it, so
`archive_created = result`. -/
structure FinalizeEffects where
  metadata_written : Option Manifest
  events_written : Option NormalizedEvents
  video_copied : Bool
  archive_created : Option String
  result : Option String
deriving Repr

/-- The no-effect outcome of the failing paths of `finalize`. -/
def FinalizeEffects.failed : FinalizeEffects :=
  { metadata_written := none, events_written := none, video_copied := false,
    archive_created := none, result := none }

/-- `TimelineMuxer.finalize`, given the existence check for the video file
and the view of the events file. `wall_clock` is the `time.time()` reading
used both for the manifest timestamp and the normalization header. The
consistency of the two events-file reads (duration, normalization) follows
from the single `EventsFileView`. -/
def finalize (st : MuxState) (video_exists : Bool) (v : EventsFileView)
    (wall_clock : Rat) : FinalizeEffects :=
  match st.recording_id with
  | none => FinalizeEffects.failed
  | some rid =>
    match st.video_file with
    | none => FinalizeEffects.failed
    | some _ =>
      if ¬ video_exists then FinalizeEffects.failed
      else
        match st.events_file with
        | none => FinalizeEffects.failed
        | some _ =>
          if ¬ v.events_exists then FinalizeEffects.failed
          else
            let metadata : Manifest :=
              { id := rid, timestamp := wall_clock,
                duration := calculate_duration st.events_file.isSome v,
                resolution := (1280, 800), fps := 10 }
            let events := normalize_events st.events_file.isSome v wall_clock
            let zip_path := rid ++ ".zip"
            { metadata_written := some metadata,
              events_written := some events,
              video_copied := true,
              archive_created := some zip_path,
              result := some zip_path }

end TimelineMuxer

namespace Uploader

/-- Python `int(...)` on a non-integer number truncates toward zero. -/
def ratTrunc (q : Rat) : Int := q.num.tdiv q.den

/-- The record dict built by `Uploader.upload_recording` and stored both
in the queue files and the in-memory queue. -/
structure UploadTask where
  path : String
  timestamp : Rat
  machine : String
  os : String
  retries : Nat
deriving DecidableEq, Repr

/-- The two externally visible effects of `upload_recording`, in program
order: writing the queue file to the durable store, then putting the
record on the in-memory `upload_queue`. -/
inductive UpAction
  | persist (file : String) (t : UploadTask)
  | enqueue (t : UploadTask)
deriving DecidableEq, Repr

/-- The queue file name `f"queue_{int(time.time())}_{id(record)}.json"`;
`now_name` is that second `time.time()` reading and `obj_id` the CPython
`id(record)`. -/
def queueFileName (now_name : Rat) (obj_id : Nat) : String :=
  "queue_" ++ toString (ratTrunc now_name) ++ "_" ++ toString obj_id
    ++ ".json"

/-- `Uploader.upload_recording`: returns the Python return value and the
ordered list of effects performed. `path_exists` is the
`os.path.exists(recording_path)` check; `now_ts` and `now_name` are the
two successive `time.time()` readings (record timestamp, queue file
name); `machine`/`os_desc` are `platform.node()` and
`platform.system() + " " + platform.release()`. -/
def upload_recording (recording_path : String) (path_exists : Bool)
    (now_ts now_name : Rat) (obj_id : Nat) (machine os_desc : String) :
    Bool × List UpAction :=
  if recording_path = "" ∨ ¬ path_exists then
    (false, [])
  else
    let record : UploadTask :=
      { path := recording_path, timestamp := now_ts, machine := machine,
        os := os_desc, retries := 0 }
    (true, [UpAction.persist (queueFileName now_name obj_id) record,
            UpAction.enqueue record])

/-- One durable queue file as `_load_queued_recordings` sees it: its name
and the outcome of opening and parsing it — `none` when `open`/`json.load`
raises, `some none` when it parses to a record without a `"path"` key,
`some (some t)` when it parses to the record `t`. -/
abbrev QueueFile := String × Option (Option UploadTask)

/-- The Python `f.endswith(".json")` test, as a suffix test on the
character sequence. -/
def endsWithJson (name : String) : Bool :=
  decide (".json".data <:+ name.data)

/-- `Uploader._load_queued_recordings`: walks the queue directory in
listing order, considers only `.json` files, enqueues every parsed record
whose referenced archive still exists and deletes the queue file of every
parsed record whose archive is missing (or that has no path). Returns the
records enqueued (in order) and the queue files remaining on disk. -/
def load_queued_recordings (path_exists : String → Bool) :
    List QueueFile → List UploadTask × List QueueFile
  | [] => ([], [])
  | (name, c) :: rest =>
    let r := load_queued_recordings path_exists rest
    if ¬ endsWithJson name then (r.1, (name, c) :: r.2)
    else
      match c with
      | none => (r.1, (name, c) :: r.2)
      | some none => (r.1, r.2)
      | some (some t) =>
        if path_exists t.path then (t :: r.1, (name, c) :: r.2)
        else (r.1, r.2)

/-- The substring test `str(int(record['timestamp'])) in f` used by the
worker to find a task's durable queue files after a successful upload. -/
def nameMatchesTask (t : UploadTask) (file : String) : Bool :=
  decide ((toString (ratTrunc t.timestamp)).data <:+: file.data)

/-- Outcome of the worker processing one dequeued record: whether it was
re-enqueued (and with which retry count), how long the backoff sleep was,
the remaining durable queue file names, and whether the task was
abandoned or skipped because its archive vanished. -/
structure StepResult where
  requeued : Option UploadTask
  backoff_wait : Option Nat
  store : List String
  abandoned : Bool
  skipped_missing : Bool
deriving DecidableEq, Repr

/-- One iteration of `Uploader._upload_worker` that has dequeued `record`:
`file_exists_now` is the re-validation `os.path.exists(record['path'])`
and `upload_ok` the outcome of `_do_upload` (HTTP 200 with JSON body ↦
`true`; any other status or raised exception ↦ `false`). `store` is the
list of durable queue file names on disk. -/
def upload_worker_step (record : UploadTask)
    (file_exists_now upload_ok : Bool) (store : List String) : StepResult :=
  if ¬ file_exists_now then
    { requeued := none, backoff_wait := none, store := store,
      abandoned := false, skipped_missing := true }
  else if upload_ok then
    { requeued := none, backoff_wait := none,
      store := store.filter fun f => ¬ nameMatchesTask record f,
      abandoned := false, skipped_missing := false }
  else
    let retries := record.retries + 1
    if retries ≤ 5 then
      { requeued := some { record with retries := retries },
        backoff_wait := some (min 30 (2 ^ retries)), store := store,
        abandoned := false, skipped_missing := false }
    else
      { requeued := none, backoff_wait := none, store := store,
        abandoned := true, skipped_missing := false }

end Uploader

/-- Truncating division by a positive integer is monotone (helper for the
normalization order theorem). -/
theorem tdiv_mono_of_pos {a b m : Int} (hm : 0 < m) (h : a ≤ b) :
    a.tdiv m ≤ b.tdiv m := by
  rcases le_or_lt 0 a with ha | ha
  · rw [Int.tdiv_eq_ediv ha hm.le, Int.tdiv_eq_ediv (ha.trans h) hm.le]
    exact Int.ediv_le_ediv hm h
  · rcases le_or_lt 0 b with hb | hb
    · have h1 : (-a).tdiv m = -(a.tdiv m) := Int.neg_tdiv a m
      have h2 : 0 ≤ (-a).tdiv m :=
        Int.tdiv_nonneg (by omega) hm.le
      have h3 : 0 ≤ b.tdiv m := Int.tdiv_nonneg hb hm.le
      omega
    · have h1 : (-a).tdiv m = -(a.tdiv m) := Int.neg_tdiv a m
      have h2 : (-b).tdiv m = -(b.tdiv m) := Int.neg_tdiv b m
      have h3 : (-b).tdiv m ≤ (-a).tdiv m := by
        rw [Int.tdiv_eq_ediv (by omega) hm.le,
          Int.tdiv_eq_ediv (by omega) hm.le]
        exact Int.ediv_le_ediv hm (by omega)
      omega

/-- Claim C7: whenever the capture role has a new frame ready and the
bounded frame channel (capacity 2) is full, the new frame is dropped: the
channel contents are unchanged, no error is raised (the iteration is a
total function of the state), and the iteration still completes with
`last_capture_time` advanced, so the capture role proceeds to its next
sampling iteration without blocking on the channel. -/
theorem capture_drops_frame_on_full_channel
    (st : ScreenCapture.CaptureState) (frame_interval current_time : Rat)
    (now_ns : Int) (pixels : ScreenCapture.Pixels)
    (hfull : st.frame_queue.length = 2)
    (hdue : frame_interval ≤ current_time - st.last_capture_time) :
    ScreenCapture.capture_iteration st frame_interval current_time now_ns
        pixels
      = { last_capture_time := current_time,
          frame_queue := st.frame_queue } := by
  unfold ScreenCapture.capture_iteration ScreenCapture.frame_queue_full
  simp [hfull, hdue]

/-- Witness for C7: a concrete full channel with a due frame. -/
theorem capture_drops_frame_on_full_channel_witness :
    ScreenCapture.capture_iteration ⟨0, [(1, "a"), (2, "b")]⟩ (1/10) 1 7
        "c"
      = { last_capture_time := 1, frame_queue := [(1, "a"), (2, "b")] } :=
  capture_drops_frame_on_full_channel ⟨0, [(1, "a"), (2, "b")]⟩ (1/10) 1 7
    "c" (by decide) (by norm_num)

/-- Claim C3 (amended): the process-wide clock origin is lazily
initialized at most once — a read of an unset origin stores the current
reading, and every read after that returns the stored value and leaves it
unchanged — and every input-event timestamp recorded by the Event Logger
is `now - origin` in nanoseconds against that shared origin. The
timestamp stamped on a captured frame, however, is the raw
`perf_counter_ns` reading `now` itself, not `now - origin`: the capture
worker does not consult the shared clock. -/
theorem clock_origin_once_and_producer_timestamps :
    (∀ now : Int, Timing.get_start_time none now = (now, some now)) ∧
    (∀ origin now : Int,
      Timing.get_start_time (some origin) now = (origin, some origin)) ∧
    (∀ origin now : Int,
      Timing.get_timestamp_ns (some origin) now
        = (now - origin, some origin)) ∧
    (∀ (st : InputLogger.LoggerState) (origin now : Int)
      (mk : Int → InputLogger.InputEvent),
      st.running = true → st.clock = some origin →
      (InputLogger.add_event st now mk).events
        = st.events ++ [mk (now - origin)]) ∧
    (∀ (st : ScreenCapture.CaptureState) (frame_interval current_time : Rat)
      (now_ns : Int) (pixels : ScreenCapture.Pixels),
      frame_interval ≤ current_time - st.last_capture_time →
      st.frame_queue.length < 2 →
      (ScreenCapture.capture_iteration st frame_interval current_time
          now_ns pixels).frame_queue
        = st.frame_queue ++ [(now_ns, pixels)]) := by
  refine ⟨fun now => rfl, fun origin now => rfl, fun origin now => rfl,
    ?_, ?_⟩
  · intro st origin now mk hrun hclock
    simp [InputLogger.add_event, hrun, hclock, Timing.get_timestamp_ns,
      Timing.get_start_time]
  · intro st frame_interval current_time now_ns pixels hdue hroom
    unfold ScreenCapture.capture_iteration ScreenCapture.frame_queue_full
    simp [hdue]
    omega

/-- Witness for the amended C3 theorem at concrete inputs. -/
theorem clock_origin_once_and_producer_timestamps_witness :
    (InputLogger.add_event
        { running := true, events := [], drag_state := .init,
          clock := some 5 }
        7 (fun t => { t := t, kind := "scroll" })).events
        = [{ t := 2, kind := "scroll" }] ∧
    (ScreenCapture.capture_iteration ⟨0, []⟩ (1/10) 1 7 "px").frame_queue
      = [(7, "px")] := by
  constructor
  · have h := clock_origin_once_and_producer_timestamps.2.2.2.1
      { running := true, events := [], drag_state := .init,
        clock := some 5 }
      5 7 (fun t => { t := t, kind := "scroll" }) rfl rfl
    simpa using h
  · exact clock_origin_once_and_producer_timestamps.2.2.2.2
      ⟨0, []⟩ (1/10) 1 7 "px" (by norm_num) (by decide)

/-- Claim C1: for every events file whose parsed content is a sequence of
recorded events (nonempty, with non-decreasing timestamps as the
append-only logger produces them), the normalized output contains exactly
as many events, sorted by non-decreasing `t`, with the first event's `t`
equal to 0, and every event's `t` rebased relative to the first event's
timestamp and rescaled from nanoseconds to milliseconds. -/
theorem normalize_events_count_sorted_rebased
    (e : TimelineMuxer.RawEvent) (rest : List TimelineMuxer.RawEvent)
    (v : TimelineMuxer.EventsFileView)
    (hex : v.events_exists = true)
    (hc : v.content = some ⟨some (e :: rest)⟩)
    (hsorted : List.Sorted (fun a b =>
      TimelineMuxer.RawEvent.t a ≤ TimelineMuxer.RawEvent.t b) (e :: rest))
    (wall_clock : Rat) :
    (TimelineMuxer.normalize_events true v wall_clock).events
        = (e :: rest).map
            (fun ev => { ev with t := (ev.t - e.t).tdiv 1000000 }) ∧
    (TimelineMuxer.normalize_events true v wall_clock).events.length
        = (e :: rest).length ∧
    List.Sorted (fun a b =>
        TimelineMuxer.RawEvent.t a ≤ TimelineMuxer.RawEvent.t b)
      (TimelineMuxer.normalize_events true v wall_clock).events ∧
    (TimelineMuxer.normalize_events true v wall_clock).events.head?
        = some { e with t := 0 } := by
  have heq : (TimelineMuxer.normalize_events true v wall_clock).events
      = (e :: rest).map
          (fun ev => { ev with t := (ev.t - e.t).tdiv 1000000 }) := by
    simp [TimelineMuxer.normalize_events, hex, hc]
  refine ⟨heq, by rw [heq]; simp, ?_, ?_⟩
  · rw [heq]
    exact hsorted.map _ (fun a b hab =>
      tdiv_mono_of_pos (by norm_num) (by omega))
  · rw [heq]
    simp

/-- Witness for C1: the spec example, events at 1 s and 3 s (in
nanoseconds) normalize to `t` values 0 and 2000 milliseconds, sorted,
first at 0, with payloads preserved. -/
theorem normalize_events_count_sorted_rebased_witness :
    (TimelineMuxer.normalize_events true
        ⟨true, some ⟨some [⟨1000000000, "a"⟩, ⟨3000000000, "b"⟩]⟩⟩
        0).events
      = [⟨0, "a"⟩, ⟨2000, "b"⟩] := by
  have h := normalize_events_count_sorted_rebased
    ⟨1000000000, "a"⟩ [⟨3000000000, "b"⟩]
    ⟨true, some ⟨some [⟨1000000000, "a"⟩, ⟨3000000000, "b"⟩]⟩⟩
    rfl rfl (by simp [List.Sorted]) 0
  rw [h.1]
  simp only [List.map]
  norm_num [Int.tdiv_eq_ediv]

/-- Claim C2: for every events file, if it parses and carries at least
two events the computed session duration is `(t_last - t_first)` in
event-clock nanoseconds converted to seconds; an absent file (or unset
path) and a parsed file with fewer than two events fall back to the fixed
30-second placeholder, and a malformed file (a raised exception while
reading) falls back to the fixed 0-second default — no case fails the
finalize operation. -/
theorem calculate_duration_cases :
    (∀ (v : TimelineMuxer.EventsFileView) (e : TimelineMuxer.RawEvent)
      (rest : List TimelineMuxer.RawEvent),
      v.events_exists = true → v.content = some ⟨some (e :: rest)⟩ →
      rest ≠ [] →
      TimelineMuxer.calculate_duration true v
        = ((((e :: rest).getLast (by simp)).t - e.t : Int) : Rat)
            / 1000000000) ∧
    (∀ v : TimelineMuxer.EventsFileView,
      TimelineMuxer.calculate_duration false v = 30) ∧
    (∀ v : TimelineMuxer.EventsFileView, v.events_exists = false →
      TimelineMuxer.calculate_duration true v = 30) ∧
    (∀ v : TimelineMuxer.EventsFileView, v.events_exists = true →
      v.content = none → TimelineMuxer.calculate_duration true v = 0) ∧
    (∀ (v : TimelineMuxer.EventsFileView) (d : TimelineMuxer.EventsData),
      v.events_exists = true → v.content = some d → d.events = none →
      TimelineMuxer.calculate_duration true v = 30) ∧
    (∀ (v : TimelineMuxer.EventsFileView) (evs : List TimelineMuxer.RawEvent),
      v.events_exists = true → v.content = some ⟨some evs⟩ →
      evs.length ≤ 1 →
      TimelineMuxer.calculate_duration true v = 30) := by
  refine ⟨?_, ?_, ?_, ?_, ?_, ?_⟩
  · intro v e rest hex hc hne
    have hlen : 1 < (e :: rest).length := by
      cases rest with
      | nil => exact absurd rfl hne
      | cons b l => simp
    simp [TimelineMuxer.calculate_duration, hex, hc, hlen]
    exact fun h => absurd h hne
  · intro v
    simp [TimelineMuxer.calculate_duration]
  · intro v hex
    simp [TimelineMuxer.calculate_duration, hex]
  · intro v hex hc
    simp [TimelineMuxer.calculate_duration, hex, hc]
  · intro v d hex hc hev
    simp [TimelineMuxer.calculate_duration, hex, hc, hev]
  · intro v evs hex hc hlen
    have h2 : ¬ 1 < evs.length := by omega
    simp [TimelineMuxer.calculate_duration, hex, hc, h2]

/-- Witness for C2: the spec example (events at 1 s and 3 s in
nanoseconds give 2.0 seconds) plus the absent-file and malformed-file
fallbacks at concrete inputs. -/
theorem calculate_duration_cases_witness :
    TimelineMuxer.calculate_duration true
        ⟨true, some ⟨some [⟨1000000000, "a"⟩, ⟨3000000000, "b"⟩]⟩⟩ = 2 ∧
    TimelineMuxer.calculate_duration true ⟨false, none⟩ = 30 ∧
    TimelineMuxer.calculate_duration true ⟨true, none⟩ = 0 := by
  refine ⟨?_, ?_, ?_⟩
  · rw [calculate_duration_cases.1
      ⟨true, some ⟨some [⟨1000000000, "a"⟩, ⟨3000000000, "b"⟩]⟩⟩
      ⟨1000000000, "a"⟩ [⟨3000000000, "b"⟩] rfl rfl (by simp)]
    norm_num
  · exact calculate_duration_cases.2.2.1 ⟨false, none⟩ rfl
  · exact calculate_duration_cases.2.2.2.1 ⟨true, none⟩ rfl rfl

/-- Claim C6: whenever the registered video path is unset or its file
does not exist, or the registered events path is unset or its file does
not exist, `finalize` returns no package and creates no archive; both
artifacts existing is a precondition for any archive to be produced. -/
theorem finalize_missing_artifact_no_package
    (st : TimelineMuxer.MuxState) (video_exists : Bool)
    (v : TimelineMuxer.EventsFileView) (wall_clock : Rat)
    (h : st.video_file = none ∨ video_exists = false ∨
      st.events_file = none ∨ v.events_exists = false) :
    (TimelineMuxer.finalize st video_exists v wall_clock).result = none ∧
    (TimelineMuxer.finalize st video_exists v wall_clock).archive_created
      = none := by
  obtain ⟨run, rid, vf, ef⟩ := st
  obtain ⟨evex, content⟩ := v
  cases rid <;> cases vf <;> cases ef <;> cases video_exists <;>
    cases evex <;>
    simp_all [TimelineMuxer.finalize, TimelineMuxer.FinalizeEffects.failed]

/-- Witness for C6: finalize with a registered but missing video file
returns no package and creates no archive. -/
theorem finalize_missing_artifact_no_package_witness :
    (TimelineMuxer.finalize
        { running := false, recording_id := some "recording_1",
          video_file := some "v.mp4", events_file := some "e.json" }
        false ⟨true, none⟩ 0).result = none ∧
    (TimelineMuxer.finalize
        { running := false, recording_id := some "recording_1",
          video_file := some "v.mp4", events_file := some "e.json" }
        false ⟨true, none⟩ 0).archive_created = none :=
  finalize_missing_artifact_no_package
    { running := false, recording_id := some "recording_1",
      video_file := some "v.mp4", events_file := some "e.json" }
    false ⟨true, none⟩ 0 (Or.inr (Or.inl rfl))

/-- Claim C10: every finalize that produces a package writes the fixed
constants — resolution `[1280, 800]` and fps `10` — into both the
manifest and the normalized events meta header; the muxer takes no input
from the Frame Pipeline's configured or detected resolution or frame
rate, so the values are independent of it. -/
theorem finalize_constant_resolution_fps
    (st : TimelineMuxer.MuxState) (video_exists : Bool)
    (v : TimelineMuxer.EventsFileView) (wall_clock : Rat)
    (h : (TimelineMuxer.finalize st video_exists v wall_clock).result.isSome) :
    ∃ m n nm,
      (TimelineMuxer.finalize st video_exists v wall_clock).metadata_written
          = some m ∧
      m.resolution = (1280, 800) ∧ m.fps = 10 ∧
      (TimelineMuxer.finalize st video_exists v wall_clock).events_written
          = some n ∧
      n.meta = some nm ∧ nm.resolution = (1280, 800) ∧ nm.fps = 10 := by
  obtain ⟨run, rid, vf, ef⟩ := st
  obtain ⟨evex, content⟩ := v
  cases rid <;> cases vf <;> cases ef <;> cases video_exists <;>
    cases evex <;>
    simp_all [TimelineMuxer.finalize, TimelineMuxer.FinalizeEffects.failed]
  rcases content with _ | ⟨_ | evs⟩
  · simp [TimelineMuxer.normalize_events]
  · simp [TimelineMuxer.normalize_events]
  · cases evs <;> simp [TimelineMuxer.normalize_events]

/-- Witness for C10: a concrete successful finalize carries the constant
resolution and fps in both places. -/
theorem finalize_constant_resolution_fps_witness :
    ∃ m n nm,
      (TimelineMuxer.finalize
          { running := false, recording_id := some "recording_1",
            video_file := some "v.mp4", events_file := some "e.json" }
          true ⟨true, some ⟨some [⟨0, "a"⟩]⟩⟩ 0).metadata_written
          = some m ∧
      m.resolution = (1280, 800) ∧ m.fps = 10 ∧
      (TimelineMuxer.finalize
          { running := false, recording_id := some "recording_1",
            video_file := some "v.mp4", events_file := some "e.json" }
          true ⟨true, some ⟨some [⟨0, "a"⟩]⟩⟩ 0).events_written
          = some n ∧
      n.meta = some nm ∧ nm.resolution = (1280, 800) ∧ nm.fps = 10 :=
  finalize_constant_resolution_fps
    { running := false, recording_id := some "recording_1",
      video_file := some "v.mp4", events_file := some "e.json" }
    true ⟨true, some ⟨some [⟨0, "a"⟩]⟩⟩ 0 (by rfl)

/-- Claim C4: a mouse-down at `(x0, y0)` on a tracked button followed by
a mouse-up at `(x1, y1)` on the same button with no intervening events
appends, in order, `mouse_down` then `mouse_up`, and additionally a
`drag_end` carrying start `(x0, y0)`, end `(x1, y1)` and the elapsed
duration if and only if the displacement exceeds 5 pixels on either
single axis; the button's drag flag is cleared to inactive either way. -/
theorem mouse_click_drag_gesture
    (st : InputLogger.LoggerState) (now1 now2 x0 y0 x1 y1 : Int)
    (name : String)
    (hname : name = "left" ∨ name = "right" ∨ name = "middle")
    (hrun : st.running = true) :
    (InputLogger.on_mouse_click
        (InputLogger.on_mouse_click st now1 x0 y0 name true)
        now2 x1 y1 name false).events
      = st.events
        ++ [{ t := now1 - st.clock.getD now1, kind := "mouse_down",
              button := some name, x := some x0, y := some y0 },
            { t := now2 - st.clock.getD now1, kind := "mouse_up",
              button := some name, x := some x1, y := some y1 }]
        ++ (if 5 < |x1 - x0| ∨ 5 < |y1 - y0| then
              [{ t := now2 - st.clock.getD now1, kind := "drag_end",
                 button := some name,
                 start_x := some x0, start_y := some y0,
                 end_x := some x1, end_y := some y1,
                 duration_ns := some (now2 - now1) }]
            else []) ∧
    ((InputLogger.on_mouse_click
        (InputLogger.on_mouse_click st now1 x0 y0 name true)
        now2 x1 y1 name false).drag_state.getButton name) = false := by
  obtain ⟨run, events, drag, clock⟩ := st
  subst hrun
  rcases hname with h | h | h <;> subst h <;>
    cases clock <;>
    · unfold InputLogger.on_mouse_click InputLogger.add_event
        InputLogger.dragKeys Timing.get_timestamp_ns Timing.get_start_time
      simp only [InputLogger.DragState.getButton,
        InputLogger.DragState.setButton]
      norm_num
      by_cases hd : 5 < |x1 - x0| ∨ 5 < |y1 - y0| <;>
        simp [hd, InputLogger.DragState.getButton,
          InputLogger.DragState.setButton]

/-- Witness for C4: the two spec examples. A press at (100,200) released
at (200,300) yields `mouse_down`, `mouse_up`, `drag_end` with the start
and end coordinates; released at (102,201) it yields only `mouse_down`,
`mouse_up` (both displacements within 5 px). -/
theorem mouse_click_drag_gesture_witness :
    (InputLogger.on_mouse_click
        (InputLogger.on_mouse_click
          { running := true, events := [], drag_state := .init,
            clock := some 0 } 10 100 200 "left" true)
        20 200 300 "left" false).events
      = [{ t := 10, kind := "mouse_down", button := some "left",
           x := some 100, y := some 200 },
         { t := 20, kind := "mouse_up", button := some "left",
           x := some 200, y := some 300 },
         { t := 20, kind := "drag_end", button := some "left",
           start_x := some 100, start_y := some 200,
           end_x := some 200, end_y := some 300,
           duration_ns := some 10 }] ∧
    (InputLogger.on_mouse_click
        (InputLogger.on_mouse_click
          { running := true, events := [], drag_state := .init,
            clock := some 0 } 10 100 200 "left" true)
        20 102 201 "left" false).events
      = [{ t := 10, kind := "mouse_down", button := some "left",
           x := some 100, y := some 200 },
         { t := 20, kind := "mouse_up", button := some "left",
           x := some 102, y := some 201 }] := by
  constructor
  · have h := mouse_click_drag_gesture
      { running := true, events := [], drag_state := .init,
        clock := some 0 } 10 20 100 200 200 300 "left" (Or.inl rfl) rfl
    rw [h.1]
    norm_num
  · have h := mouse_click_drag_gesture
      { running := true, events := [], drag_state := .init,
        clock := some 0 } 10 20 100 200 102 201 "left" (Or.inl rfl) rfl
    rw [h.1]
    norm_num

/-- Claim C9: `upload_recording` with an empty path or a missing archive
returns failure and performs no effect at all; otherwise it builds the
task with `retries = 0` and the machine/OS descriptors, persists it to
the durable queue file strictly before putting it on the in-memory
queue, and returns success — the return value depends solely on the
existence check. -/
theorem upload_recording_persist_before_enqueue
    (recording_path : String) (path_exists : Bool) (now_ts now_name : Rat)
    (obj_id : Nat) (machine os_desc : String) :
    (recording_path = "" ∨ path_exists = false →
      Uploader.upload_recording recording_path path_exists now_ts now_name
          obj_id machine os_desc
        = (false, [])) ∧
    (recording_path ≠ "" → path_exists = true →
      Uploader.upload_recording recording_path path_exists now_ts now_name
          obj_id machine os_desc
        = (true,
           [Uploader.UpAction.persist
              (Uploader.queueFileName now_name obj_id)
              { path := recording_path, timestamp := now_ts,
                machine := machine, os := os_desc, retries := 0 },
            Uploader.UpAction.enqueue
              { path := recording_path, timestamp := now_ts,
                machine := machine, os := os_desc, retries := 0 }])) := by
  constructor
  · intro h
    rcases h with h | h <;> simp [Uploader.upload_recording, h]
  · intro h1 h2
    simp [Uploader.upload_recording, h1, h2]

/-- Witness for C9: a concrete successful submission and a concrete
missing-archive failure. -/
theorem upload_recording_persist_before_enqueue_witness :
    Uploader.upload_recording "r.zip" true 1 1 2 "m" "win"
      = (true,
         [Uploader.UpAction.persist (Uploader.queueFileName 1 2)
            { path := "r.zip", timestamp := 1, machine := "m",
              os := "win", retries := 0 },
          Uploader.UpAction.enqueue
            { path := "r.zip", timestamp := 1, machine := "m",
              os := "win", retries := 0 }]) ∧
    Uploader.upload_recording "r.zip" false 1 1 2 "m" "win"
      = (false, []) :=
  ⟨(upload_recording_persist_before_enqueue "r.zip" true 1 1 2 "m"
      "win").2 (by decide) rfl,
   (upload_recording_persist_before_enqueue "r.zip" false 1 1 2 "m"
      "win").1 (Or.inr rfl)⟩

/-- Claim C5: for one repeatedly failing upload task, each failure
increments the retry count; while the incremented count is at or below
the ceiling of 5 the worker waits `min(30, 2^retry_count)` seconds —
the sequence 2, 4, 8, 16, 30 for counts 1 through 5 — and re-enqueues
the task with the durable record untouched; the 6th failure abandons the
task with no requeue and its durable record left behind; a successful
upload deletes the task's durable queue records instead. -/
theorem upload_worker_retry_backoff (record : Uploader.UploadTask)
    (store : List String) :
    (record.retries + 1 ≤ 5 →
      Uploader.upload_worker_step record true false store
        = { requeued := some { record with retries := record.retries + 1 },
            backoff_wait := some (min 30 (2 ^ (record.retries + 1))),
            store := store, abandoned := false,
            skipped_missing := false }) ∧
    ((List.range 5).map (fun k =>
        (Uploader.upload_worker_step { record with retries := k } true
            false store).backoff_wait)
      = [some 2, some 4, some 8, some 16, some 30]) ∧
    (record.retries = 5 →
      Uploader.upload_worker_step record true false store
        = { requeued := none, backoff_wait := none, store := store,
            abandoned := true, skipped_missing := false }) ∧
    (Uploader.upload_worker_step record true true store
        = { requeued := none, backoff_wait := none,
            store := store.filter fun f =>
              ¬ Uploader.nameMatchesTask record f,
            abandoned := false, skipped_missing := false }) ∧
    (∀ f, Uploader.nameMatchesTask record f = true →
      f ∉ (Uploader.upload_worker_step record true true store).store) := by
  refine ⟨?_, ?_, ?_, ?_, ?_⟩
  · intro h
    simp [Uploader.upload_worker_step, h]
  · simp [Uploader.upload_worker_step, List.range_succ]
  · intro h
    simp [Uploader.upload_worker_step, h]
  · simp [Uploader.upload_worker_step]
  · intro f hf
    simp [Uploader.upload_worker_step, List.mem_filter, hf]

/-- Witness for C5: a concrete task failing with retry count 0 waits 2
seconds and is re-enqueued at count 1; at count 5 the next failure
abandons it with the store untouched; a success deletes its matching
durable record. -/
theorem upload_worker_retry_backoff_witness :
    Uploader.upload_worker_step
        { path := "r.zip", timestamp := 7, machine := "m", os := "w",
          retries := 0 } true false ["queue_7_2.json"]
      = { requeued :=
            some { path := "r.zip", timestamp := 7, machine := "m",
                   os := "w", retries := 1 },
          backoff_wait := some 2, store := ["queue_7_2.json"],
          abandoned := false, skipped_missing := false } ∧
    Uploader.upload_worker_step
        { path := "r.zip", timestamp := 7, machine := "m", os := "w",
          retries := 5 } true false ["queue_7_2.json"]
      = { requeued := none, backoff_wait := none,
          store := ["queue_7_2.json"], abandoned := true,
          skipped_missing := false } ∧
    "queue_7_2.json" ∉ (Uploader.upload_worker_step
        { path := "r.zip", timestamp := 7, machine := "m", os := "w",
          retries := 0 } true true ["queue_7_2.json"]).store := by
  refine ⟨?_, ?_, ?_⟩
  · exact (upload_worker_retry_backoff
      { path := "r.zip", timestamp := 7, machine := "m", os := "w",
        retries := 0 } ["queue_7_2.json"]).1 (by decide)
  · exact (upload_worker_retry_backoff
      { path := "r.zip", timestamp := 7, machine := "m", os := "w",
        retries := 5 } ["queue_7_2.json"]).2.2.1 rfl
  · exact (upload_worker_retry_backoff
      { path := "r.zip", timestamp := 7, machine := "m", os := "w",
        retries := 0 } ["queue_7_2.json"]).2.2.2.2 "queue_7_2.json"
      (by decide)

/-- Counterexample for C3 as stated: after the clock origin has been
initialized to 5, a capture iteration at `perf_counter_ns` reading 7
pushes a frame stamped 7, while `now - origin` is 2; the frame timestamp
is not rebased against the shared origin. -/
theorem frame_timestamp_not_rebased :
    (ScreenCapture.capture_iteration ⟨0, []⟩ (1/10) 1 7 "px").frame_queue
        = [(7, "px")] ∧
    (Timing.get_timestamp_ns (some 5) 7).1 = 2 ∧
    (7 : Int) ≠ 2 := by
  refine ⟨?_, rfl, by decide⟩
  norm_num [ScreenCapture.capture_iteration, ScreenCapture.frame_queue_full]

/-- Helper: a task whose archive is missing is never put on the
in-memory queue by the startup reload, wherever its record sits. -/
theorem load_queued_not_requeued_of_missing
    (pexists : String → Bool) (t : Uploader.UploadTask)
    (hne : pexists t.path = false) (files : List Uploader.QueueFile) :
    t ∉ (Uploader.load_queued_recordings pexists files).1 := by
  induction files with
  | nil => simp [Uploader.load_queued_recordings]
  | cons hd tl ih =>
    obtain ⟨n, c⟩ := hd
    simp only [Uploader.load_queued_recordings]
    by_cases hj : Uploader.endsWithJson n = true
    · rcases c with _ | _ | t2
      · simp [hj, ih]
      · simp [hj, ih]
      · by_cases hp : pexists t2.path = true
        · simp [hj, hp]
          refine ⟨?_, ih⟩
          intro he
          rw [he] at hne
          rw [hne] at hp
          simp at hp
        · simp [hj, hp, ih]
    · simp [hj, ih]

/-- Helper: the durable record of a parsed task whose archive is missing
is removed from the queue directory by the startup reload. -/
theorem load_queued_record_removed_of_missing
    (pexists : String → Bool) (t : Uploader.UploadTask) (name : String)
    (hjson : Uploader.endsWithJson name = true)
    (hne : pexists t.path = false) (files : List Uploader.QueueFile) :
    (name, some (some t))
      ∉ (Uploader.load_queued_recordings pexists files).2 := by
  induction files with
  | nil => simp [Uploader.load_queued_recordings]
  | cons hd tl ih =>
    obtain ⟨n, c⟩ := hd
    simp only [Uploader.load_queued_recordings]
    by_cases hj : Uploader.endsWithJson n = true
    · rcases c with _ | _ | t2
      · simp [hj, ih]
      · simp [hj, ih]
      · by_cases hp : pexists t2.path = true
        · simp [hj, hp]
          refine ⟨?_, ih⟩
          intro hn ht
          rw [ht] at hne
          rw [hne] at hp
          simp at hp
        · simp [hj, hp, ih]
    · simp [hj, ih]
      intro hn
      rw [hn] at hjson
      exact absurd hjson hj

/-- Claim C8: on Upload Queue construction, every persisted durable task
record (a parseable `.json` queue file) whose referenced archive still
exists is reloaded into the in-memory queue with its record retained,
and every record whose referenced archive no longer exists is discarded
— never enqueued — and its durable record deleted from the queue
directory. -/
theorem load_queued_restart_recovery
    (pexists : String → Bool) (files : List Uploader.QueueFile)
    (name : String) (t : Uploader.UploadTask)
    (hjson : Uploader.endsWithJson name = true)
    (hmem : (name, some (some t)) ∈ files) :
    (pexists t.path = true →
      t ∈ (Uploader.load_queued_recordings pexists files).1 ∧
      (name, some (some t))
        ∈ (Uploader.load_queued_recordings pexists files).2) ∧
    (pexists t.path = false →
      t ∉ (Uploader.load_queued_recordings pexists files).1 ∧
      (name, some (some t))
        ∉ (Uploader.load_queued_recordings pexists files).2) := by
  constructor
  · intro hp
    induction files with
    | nil => simp at hmem
    | cons hd tl ih =>
      obtain ⟨n, c⟩ := hd
      rcases List.mem_cons.mp hmem with heq | hmem2
      · rw [Prod.mk.injEq] at heq
        obtain ⟨hn, hc⟩ := heq
        subst hn
        rw [← hc]
        simp only [Uploader.load_queued_recordings]
        simp [hjson, hp]
      · have ih2 := ih hmem2
        simp only [Uploader.load_queued_recordings]
        by_cases hj : Uploader.endsWithJson n = true
        · rcases c with _ | _ | t2
          · simp [hj, ih2]
          · simp [hj, ih2]
          · by_cases hp2 : pexists t2.path = true <;>
              simp [hj, hp2, ih2.1, ih2.2]
        · simp [hj, ih2.1, ih2.2]
  · intro hp
    exact ⟨load_queued_not_requeued_of_missing pexists t hp files,
      load_queued_record_removed_of_missing pexists t name hjson hp files⟩

/-- Witness for C8: a reload over two durable records, one whose archive
exists (enqueued, record retained) and one whose archive is gone (never
enqueued, record deleted). -/
theorem load_queued_restart_recovery_witness :
    ({ path := "a.zip", timestamp := 1, machine := "m", os := "w", retries := 0 } : Uploader.UploadTask)
      ∈ (Uploader.load_queued_recordings (fun s => decide (s = "a.zip"))
          [("q1.json", some (some { path := "a.zip", timestamp := 1, machine := "m", os := "w", retries := 0 })),
           ("q2.json", some (some { path := "b.zip", timestamp := 2, machine := "m", os := "w", retries := 0 }))]).1 ∧
    ({ path := "b.zip", timestamp := 2, machine := "m", os := "w", retries := 0 } : Uploader.UploadTask)
      ∉ (Uploader.load_queued_recordings (fun s => decide (s = "a.zip"))
          [("q1.json", some (some { path := "a.zip", timestamp := 1, machine := "m", os := "w", retries := 0 })),
           ("q2.json", some (some { path := "b.zip", timestamp := 2, machine := "m", os := "w", retries := 0 }))]).1 ∧
    ("q2.json", some (some ({ path := "b.zip", timestamp := 2, machine := "m", os := "w", retries := 0 } : Uploader.UploadTask)))
      ∉ (Uploader.load_queued_recordings (fun s => decide (s = "a.zip"))
          [("q1.json", some (some { path := "a.zip", timestamp := 1, machine := "m", os := "w", retries := 0 })),
           ("q2.json", some (some { path := "b.zip", timestamp := 2, machine := "m", os := "w", retries := 0 }))]).2 := by
  refine ⟨?_, ?_, ?_⟩
  · exact ((load_queued_restart_recovery (fun s => decide (s = "a.zip"))
      [("q1.json", some (some { path := "a.zip", timestamp := 1, machine := "m", os := "w", retries := 0 })),
       ("q2.json", some (some { path := "b.zip", timestamp := 2, machine := "m", os := "w", retries := 0 }))]
      "q1.json"
      { path := "a.zip", timestamp := 1, machine := "m", os := "w", retries := 0 }
      (by decide) (by simp)).1 (by decide)).1
  · exact ((load_queued_restart_recovery (fun s => decide (s = "a.zip"))
      [("q1.json", some (some { path := "a.zip", timestamp := 1, machine := "m", os := "w", retries := 0 })),
       ("q2.json", some (some { path := "b.zip", timestamp := 2, machine := "m", os := "w", retries := 0 }))]
      "q2.json"
      { path := "b.zip", timestamp := 2, machine := "m", os := "w", retries := 0 }
      (by decide) (by simp)).2 (by decide)).1
  · exact ((load_queued_restart_recovery (fun s => decide (s = "a.zip"))
      [("q1.json", some (some { path := "a.zip", timestamp := 1, machine := "m", os := "w", retries := 0 })),
       ("q2.json", some (some { path := "b.zip", timestamp := 2, machine := "m", os := "w", retries := 0 }))]
      "q2.json"
      { path := "b.zip", timestamp := 2, machine := "m", os := "w", retries := 0 }
      (by decide) (by simp)).2 (by decide)).2
